import Mathlib

/-!
Shallow embedding of a slice of a data-quality validation platform:
post-validation notification actions (`great_expectations/checkpoint/actions.py`),
batch sorters, a date-parseable column metric, and an experimental partitioned
batch definition. Python semantics (exceptions, dict lookup, truthiness,
`range`) are made explicit with `Except` and total functions.
-/

namespace GXSpec

/-- Python exception values raised by the embedded code, carrying the
relevant payload (message or key). -/
inductive PyError where
  | typeError (msg : String)
  | valueError (msg : String)
  | keyError (key : String)
  | attributeError (attr : String)
  | sorterError (msg : String)
  deriving DecidableEq

instance {ε α : Type} [DecidableEq ε] [DecidableEq α] :
    DecidableEq (Except ε α) := fun x y =>
  match x, y with
  | .error a, .error b =>
    if h : a = b then .isTrue (h ▸ rfl)
    else .isFalse (fun he => h (Except.error.inj he))
  | .error _, .ok _ => .isFalse (fun he => Except.noConfusion he)
  | .ok _, .error _ => .isFalse (fun he => Except.noConfusion he)
  | .ok a, .ok b =>
    if h : a = b then .isTrue (h ▸ rfl)
    else .isFalse (fun he => h (Except.ok.inj he))

/-- The `notify_on` field of `ValidationAction`:
`Literal["all", "failure", "success"]` (actions.py line 98). -/
inductive NotifyOn where
  | all
  | failure
  | success
  deriving DecidableEq, BEq

/-- `ValidationAction._is_enabled` (actions.py lines 166-173):
`self.notify_on == "all" or self.notify_on == "success" and success or
self.notify_on == "failure" and not success`, with Python's precedence
(`and` binds tighter than `or`). -/
def is_enabled (notify_on : NotifyOn) (success : Bool) : Bool :=
  notify_on == NotifyOn.all
    || (notify_on == NotifyOn.success && success)
    || (notify_on == NotifyOn.failure && !success)

/-- Error message of `SlackNotificationAction._root_validate_slack_params`. -/
def slackParamsErrMsg : String :=
  "Please provide either slack_webhook or slack_token and slack_channel"

/-- `SlackNotificationAction._root_validate_slack_params` (actions.py
lines 262-276). The three optional string fields are modelled by their Python
truthiness (provided and non-empty). The code asserts
`not slack_token and not slack_channel` when `slack_webhook` is truthy, else
`slack_token and slack_channel`; a failed assertion is converted to a
`ValueError` at configuration time. -/
def root_validate_slack_params (slack_webhook slack_token slack_channel : Bool) :
    Except PyError Unit :=
  if slack_webhook then
    if !slack_token && !slack_channel then Except.ok ()
    else Except.error (PyError.valueError slackParamsErrMsg)
  else
    if slack_token && slack_channel then Except.ok ()
    else Except.error (PyError.valueError slackParamsErrMsg)

/-- C3: for every `notify_on` in {all, failure, success} and every boolean
`success`, `_is_enabled` returns true iff `notify_on` is `all`, or `notify_on`
is `success` and `success` is true, or `notify_on` is `failure` and `success`
is false (the full 3×2 truth table). -/
theorem is_enabled_truth_table : ∀ (n : NotifyOn) (s : Bool),
    is_enabled n s = true ↔
      (n = NotifyOn.all ∨ (n = NotifyOn.success ∧ s = true)
        ∨ (n = NotifyOn.failure ∧ s = false)) := by
  intro n s
  cases n <;> cases s <;> decide

/-- C7 counterexample: with a webhook and a channel but no token, exactly one
of {webhook} or {token together with channel} is provided, so the claim says
construction succeeds; the validator nevertheless rejects this combination,
because a truthy webhook requires both token and channel to be absent. -/
theorem slack_params_exactly_one_still_fails :
    (xor true (false && true)) = true ∧
      root_validate_slack_params true false true =
        Except.error (PyError.valueError slackParamsErrMsg) :=
  ⟨rfl, rfl⟩

/-- C7 (amended): construction succeeds iff either the webhook is provided
with neither token nor channel, or token and channel are both provided
without a webhook; every other combination fails at configuration time. -/
theorem slack_params_valid_iff : ∀ w t c : Bool,
    root_validate_slack_params w t c = Except.ok () ↔
      ((w && !t && !c) || (!w && t && c)) = true := by
  intro w t c
  cases w <;> cases t <;> cases c <;>
    simp [root_validate_slack_params]

/-- Python `range(0, stop, step)`: the positions `[0, step, 2*step, ...]`
strictly below `stop`; a zero `step` raises
`ValueError: range() arg 3 must not be zero`. -/
def pyRangeFromZero (stop step : Nat) : Except PyError (List Nat) :=
  if step = 0 then
    Except.error (PyError.valueError "range() arg 3 must not be zero")
  else
    Except.ok (List.range' 0 ((stop + step - 1) / step) step)

/-- `SlackNotificationAction.send_notifications_in_batches` (actions.py
lines 356-365): `chunks, chunk_size = len(text), len(text) // 4`;
`split_text = [text[position : position + chunk_size] for position in
range(0, chunks, chunk_size)]`; each element of `split_text` is then posted
sequentially with the same envelope. The text is a list of characters, the
result is the sequence of chunk texts posted (the envelope reuse and the
network post are outside the embedding); the locals `chunks` and
`chunk_size` are inlined. -/
def send_notifications_in_batches (text : List Char) :
    Except PyError (List (List Char)) :=
  (pyRangeFromZero text.length (text.length / 4)).map
    (fun split_text =>
      split_text.map (fun position => (text.drop position).take (text.length / 4)))

/-- C1 counterexample: a five-character text is split with chunk size
`5 / 4 = 1` into five chunks, so five messages are posted, not four. -/
theorem slack_chunking_counterexample :
    send_notifications_in_batches "abcde".data =
        Except.ok [['a'], ['b'], ['c'], ['d'], ['e']] ∧
      ([['a'], ['b'], ['c'], ['d'], ['e']] : List (List Char)).length ≠ 4 :=
  ⟨rfl, by decide⟩

/-- C1 (amended): when the text length is a positive multiple of 4,
`send_notifications_in_batches` splits the text into exactly 4 chunks of
equal length `len / 4` whose concatenation is the text, and posts exactly
those 4 messages; for other lengths the 4-chunk claim fails (5 or more
posts when `len ≥ 4` is not a multiple of 4, an error when `len < 4`). -/
theorem slack_chunking_multiple_of_four (text : List Char) (q : Nat)
    (hq : 0 < q) (hlen : text.length = 4 * q) :
    ∃ cs : List (List Char),
      send_notifications_in_batches text = Except.ok cs ∧
        cs.length = 4 ∧ (∀ c ∈ cs, c.length = q) ∧ cs.flatten = text := by
  have hq4 : text.length / 4 = q := by omega
  have hrange : List.range' 0 4 q = [0, q, q + q, q + q + q] := by
    simp [List.range']
  have hk : (text.length + q - 1) / q = 4 := by
    rw [hlen]
    have h1 : 4 * q + q - 1 = (q - 1) + q * 4 := by omega
    rw [h1, Nat.add_mul_div_left _ _ hq, Nat.div_eq_of_lt (by omega)]
  refine ⟨(List.range' 0 4 q).map (fun position => (text.drop position).take q),
    ?_, ?_, ?_, ?_⟩
  · simp only [send_notifications_in_batches, pyRangeFromZero, hq4]
    rw [if_neg (by omega), hk, hrange]
    rfl
  · simp [hrange]
  · intro c hc
    rw [hrange] at hc
    simp only [List.map_cons, List.map_nil, List.mem_cons,
      List.not_mem_nil, or_false] at hc
    rcases hc with rfl | rfl | rfl | rfl <;>
      simp [hlen] <;> omega
  · rw [hrange]
    have d2 : text.drop (q + q) = (text.drop q).drop q := by
      rw [List.drop_drop]
    have d3 : text.drop (q + q + q) = ((text.drop q).drop q).drop q := by
      rw [List.drop_drop, List.drop_drop]
      ring_nf
    have hlast : (((text.drop q).drop q).drop q).take q =
        ((text.drop q).drop q).drop q := by
      apply List.take_of_length_le
      simp [hlen]
      omega
    simp only [List.map_cons, List.map_nil, List.flatten, List.drop_zero,
      List.append_nil]
    rw [d2, d3, hlast]
    simp [List.take_append_drop]

/-- C1 witness: the 8-character text "abcdefgh" is split into the 4 chunks
"ab", "cd", "ef", "gh" of length 2. -/
theorem slack_chunking_multiple_of_four_witness :
    0 < 2 ∧ "abcdefgh".data.length = 4 * 2 ∧
      ∃ cs : List (List Char),
        send_notifications_in_batches "abcdefgh".data = Except.ok cs ∧
          cs.length = 4 ∧ (∀ c ∈ cs, c.length = 2) ∧ cs.flatten = "abcdefgh".data :=
  ⟨by decide, by rfl, slack_chunking_multiple_of_four _ 2 (by decide) (by rfl)⟩

/-- C10: on a non-empty text of fewer than 4 characters the computed chunk
size `len(text) // 4` is 0, an invalid `range` step, so
`send_notifications_in_batches` raises instead of posting: the splitting is
not total over non-empty texts. -/
theorem slack_chunking_short_text_raises :
    "abc".data ≠ [] ∧ "abc".data.length < 4 ∧
      send_notifications_in_batches "abc".data =
        Except.error (PyError.valueError "range() arg 3 must not be zero") :=
  ⟨by decide, by decide, rfl⟩

/-- The identifier argument of an action's legacy `_run`: one of the two
recognized kinds — `ValidationResultIdentifier` (carrying a `run_id`) or
`GXCloudIdentifier` (carrying an optional assigned `id`) — or a value of any
other type (modelled by its textual form), which the `isinstance` check
rejects and which has no `run_id` attribute. -/
inductive Identifier where
  | validationResultId (run_id : String)
  | cloudId (id : Option String)
  | otherType (text : String)
  deriving DecidableEq

/-- `isinstance(x, (ValidationResultIdentifier, GXCloudIdentifier))`. -/
def Identifier.isRecognized : Identifier → Bool
  | .validationResultId _ => true
  | .cloudId _ => true
  | .otherType _ => false

/-- The validation result passed to `_run`: the preambles inspect only its
presence and its `success` flag. -/
structure ExpectationSuiteValidationResult where
  success : Bool
  deriving DecidableEq

/-- How far an action's `_run` got before returning: `skipped` is the early
warn-and-return on an absent result; `proceeded` is reaching the
action-specific rendering/delivery body (network effects are outside the
embedding). -/
inductive RunDisposition where
  | skipped
  | proceeded
  deriving DecidableEq

/-- Fixed prefix of the identifier-type-check message shared by the five
rendering notification actions (the Python message appends the offending
type). -/
def identifierTypeErrMsg : String :=
  "validation_result_suite_id must be of type ValidationResultIdentifier or GeCloudIdentifier"

/-- Dispatch prefix of `SlackNotificationAction._run` (actions.py lines
279-303): warn and return when the validation result is absent; raise
`TypeError` when the identifier is neither recognized kind; otherwise
continue into rendering and delivery. -/
def slack_run (validation_result_suite : Option ExpectationSuiteValidationResult)
    (validation_result_suite_identifier : Identifier) :
    Except PyError RunDisposition :=
  match validation_result_suite with
  | none => Except.ok RunDisposition.skipped
  | some _ =>
    if validation_result_suite_identifier.isRecognized then
      Except.ok RunDisposition.proceeded
    else
      Except.error (PyError.typeError identifierTypeErrMsg)

/-- Dispatch prefix of `PagerdutyAlertAction._run` (actions.py lines
455-489); identical preamble to the Slack action. -/
def pagerduty_run (validation_result_suite : Option ExpectationSuiteValidationResult)
    (validation_result_suite_identifier : Identifier) :
    Except PyError RunDisposition :=
  match validation_result_suite with
  | none => Except.ok RunDisposition.skipped
  | some _ =>
    if validation_result_suite_identifier.isRecognized then
      Except.ok RunDisposition.proceeded
    else
      Except.error (PyError.typeError identifierTypeErrMsg)

/-- Dispatch prefix of `MicrosoftTeamsNotificationAction._run` (actions.py
lines 562-585); identical preamble to the Slack action. -/
def microsoft_teams_run (validation_result_suite : Option ExpectationSuiteValidationResult)
    (validation_result_suite_identifier : Identifier) :
    Except PyError RunDisposition :=
  match validation_result_suite with
  | none => Except.ok RunDisposition.skipped
  | some _ =>
    if validation_result_suite_identifier.isRecognized then
      Except.ok RunDisposition.proceeded
    else
      Except.error (PyError.typeError identifierTypeErrMsg)

/-- Dispatch prefix of `OpsgenieAlertAction._run` (actions.py lines
704-728); identical preamble to the Slack action. -/
def opsgenie_run (validation_result_suite : Option ExpectationSuiteValidationResult)
    (validation_result_suite_identifier : Identifier) :
    Except PyError RunDisposition :=
  match validation_result_suite with
  | none => Except.ok RunDisposition.skipped
  | some _ =>
    if validation_result_suite_identifier.isRecognized then
      Except.ok RunDisposition.proceeded
    else
      Except.error (PyError.typeError identifierTypeErrMsg)

/-- Dispatch prefix of `EmailAction._run` (actions.py lines 875-898);
identical preamble to the Slack action. -/
def email_run (validation_result_suite : Option ExpectationSuiteValidationResult)
    (validation_result_suite_identifier : Identifier) :
    Except PyError RunDisposition :=
  match validation_result_suite with
  | none => Except.ok RunDisposition.skipped
  | some _ =>
    if validation_result_suite_identifier.isRecognized then
      Except.ok RunDisposition.proceeded
    else
      Except.error (PyError.typeError identifierTypeErrMsg)

/-- `SNSNotificationAction._run` (actions.py lines 1198-1228): an absent
result only logs a warning and execution continues; there is NO
identifier-type check. The identifier is read only in the subject fallback:
when no `sns_message_subject` is configured and no
`expectation_suite_identifier` is passed, the subject is
`validation_result_suite_identifier.run_id`; reading `run_id` from a value
without that attribute raises `AttributeError`. Delivery is abstracted as
`proceeded`. -/
def sns_run (sns_message_subject : Option String)
    (validation_result_suite : Option ExpectationSuiteValidationResult)
    (validation_result_suite_identifier : Identifier)
    (expectation_suite_identifier : Option String) :
    Except PyError RunDisposition := do
  let _subject ← match sns_message_subject with
    | some s => Except.ok s
    | none =>
      match expectation_suite_identifier with
      | none =>
        match validation_result_suite_identifier with
        | Identifier.validationResultId run_id => Except.ok run_id
        | _ => Except.error (PyError.attributeError "run_id")
      | some nm => Except.ok nm
  Except.ok RunDisposition.proceeded

/-- `APINotificationAction._run` (actions.py lines 1296-1321): no absence
check and no identifier-type check; it reads `suite_name` from the
validation result (raising `AttributeError` when the result is `None`),
builds the payload and posts it; the identifier is never inspected. Payload
build and post are abstracted as `proceeded`. -/
def api_run (validation_result_suite : Option ExpectationSuiteValidationResult)
    (validation_result_suite_identifier : Identifier) :
    Except PyError RunDisposition :=
  match validation_result_suite with
  | none => Except.error (PyError.attributeError "suite_name")
  | some _ => Except.ok RunDisposition.proceeded

/-- Whether a `_run` outcome is a raised identifier TypeMismatch. -/
def raisesTypeMismatch : Except PyError RunDisposition → Bool
  | Except.error (PyError.typeError _) => true
  | _ => false

/-- C2 counterexample: the API action's legacy `_run`, given a present
validation result and an identifier of an unrecognized type, proceeds and
posts without raising any TypeMismatch — contradicting the claim that every
notifying action raises one (the SNS action likewise has no
identifier-type check). -/
theorem api_run_no_type_mismatch :
    raisesTypeMismatch
        (api_run (some ⟨true⟩) (Identifier.otherType "a plain string")) = false ∧
      api_run (some ⟨true⟩) (Identifier.otherType "a plain string") =
        Except.ok RunDisposition.proceeded :=
  ⟨rfl, rfl⟩

/-- C2 (amended): with a present validation result and an identifier of an
unrecognized type, the five rendering notification actions (Slack,
PagerDuty, Microsoft Teams, Opsgenie, Email) raise `TypeError` from `_run`
and never swallow it; the SNS and API actions perform no identifier-type
check: API always proceeds, and SNS proceeds whenever a configured subject
is available (its `run_id` fallback can raise only `AttributeError`, not a
type mismatch). -/
theorem identifier_type_mismatch_policy :
    (∀ (r : ExpectationSuiteValidationResult) (id : Identifier),
      id.isRecognized = false →
        slack_run (some r) id = Except.error (PyError.typeError identifierTypeErrMsg) ∧
        pagerduty_run (some r) id = Except.error (PyError.typeError identifierTypeErrMsg) ∧
        microsoft_teams_run (some r) id = Except.error (PyError.typeError identifierTypeErrMsg) ∧
        opsgenie_run (some r) id = Except.error (PyError.typeError identifierTypeErrMsg) ∧
        email_run (some r) id = Except.error (PyError.typeError identifierTypeErrMsg)) ∧
    (∀ (r : ExpectationSuiteValidationResult) (id : Identifier),
      api_run (some r) id = Except.ok RunDisposition.proceeded) ∧
    (∀ (subj : String) (r : ExpectationSuiteValidationResult) (id : Identifier)
      (esid : Option String),
      sns_run (some subj) (some r) id esid = Except.ok RunDisposition.proceeded) := by
  refine ⟨?_, ?_, ?_⟩
  · intro r id h
    refine ⟨?_, ?_, ?_, ?_, ?_⟩ <;>
      simp [slack_run, pagerduty_run, microsoft_teams_run, opsgenie_run,
        email_run, h]
  · intro r id
    rfl
  · intro subj r id esid
    rfl

/-- C2 witness: the five rendering actions all raise the identifier
`TypeError` on a concrete unrecognized identifier. -/
theorem identifier_type_mismatch_policy_witness :
    slack_run (some ⟨true⟩) (Identifier.otherType "a plain string") =
        Except.error (PyError.typeError identifierTypeErrMsg) ∧
      pagerduty_run (some ⟨true⟩) (Identifier.otherType "a plain string") =
        Except.error (PyError.typeError identifierTypeErrMsg) ∧
      microsoft_teams_run (some ⟨true⟩) (Identifier.otherType "a plain string") =
        Except.error (PyError.typeError identifierTypeErrMsg) ∧
      opsgenie_run (some ⟨true⟩) (Identifier.otherType "a plain string") =
        Except.error (PyError.typeError identifierTypeErrMsg) ∧
      email_run (some ⟨true⟩) (Identifier.otherType "a plain string") =
        Except.error (PyError.typeError identifierTypeErrMsg) :=
  identifier_type_mismatch_policy.1 ⟨true⟩ (Identifier.otherType "a plain string") rfl

/-- A Python value appearing in a metric input column or as a configuration
field: a string, an integer, or `None`. -/
inductive PyVal where
  | str (s : String)
  | int (n : Int)
  | noneVal
  deriving DecidableEq

/-- Python `type(val) == str`. -/
def PyVal.isStr : PyVal → Bool
  | .str _ => true
  | _ => false

/-- Python truthiness of a value (`bool(val)`). -/
def PyVal.truthy : PyVal → Bool
  | .str s => s != ""
  | .int n => n != 0
  | .noneVal => false

/-- Outcome of the third-party `dateutil.parser.parse` on a string: success,
`ValueError` (unparseable value), or `OverflowError` (numeric overflow
during parse). -/
inductive ParseOutcome where
  | ok
  | valueError
  | overflowError
  deriving DecidableEq

/-- Message of the metric's internal type check
(column_values_dateutil_parseable.py lines 20-22). -/
def dateutilTypeErrMsg : String :=
  "Values passed to expect_column_values_to_be_dateutil_parseable must be of type string.\nIf you want to validate a column of dates or timestamps, please call the expectation before converting from string format."

/-- The inner `is_parseable` of `ColumnValuesDateutilParseable._pandas`
(column_values_dateutil_parseable.py lines 17-28), parameterized by the
outcome of the third-party `dateutil.parser.parse`: inside the `try`, a
non-string value raises `TypeError`; the `except` clause catches only
`(ValueError, OverflowError)`, so the `TypeError` propagates uncaught. -/
def is_parseable (parse : String → ParseOutcome) (val : PyVal) :
    Except PyError Bool :=
  match val with
  | PyVal.str s =>
    match parse s with
    | ParseOutcome.ok => Except.ok true
    | ParseOutcome.valueError => Except.ok false
    | ParseOutcome.overflowError => Except.ok false
  | _ => Except.error (PyError.typeError dateutilTypeErrMsg)

/-- `column.map(is_parseable)` of `ColumnValuesDateutilParseable._pandas`
(line 30): elementwise application over the column; an exception raised at
any element propagates out of the map. -/
def dateutil_parseable_pandas (parse : String → ParseOutcome) :
    List PyVal → Except PyError (List Bool)
  | [] => Except.ok []
  | v :: rest =>
    match is_parseable parse v with
    | Except.error e => Except.error e
    | Except.ok b =>
      match dateutil_parseable_pandas parse rest with
      | Except.error e => Except.error e
      | Except.ok bs => Except.ok (b :: bs)

/-- Outcomes of `dateutil.parser.parse` on the inputs of the spec's example
(third-party boundary: "2020-01-01" parses; "not-a-date" and "13/45/2020"
raise `ValueError`). -/
def exampleParse (s : String) : ParseOutcome :=
  if s = "2020-01-01" then ParseOutcome.ok else ParseOutcome.valueError

/-- C4 counterexample: on the spec's example column
`["2020-01-01", "not-a-date", 42, "13/45/2020"]` the metric does not produce
`[true, false, false, false]`: the non-string value `42` raises a `TypeError`
that the `except (ValueError, OverflowError)` clause does not catch, so the
whole map fails. -/
theorem dateutil_parseable_counterexample :
    dateutil_parseable_pandas exampleParse
        [PyVal.str "2020-01-01", PyVal.str "not-a-date", PyVal.int 42,
          PyVal.str "13/45/2020"] =
        Except.error (PyError.typeError dateutilTypeErrMsg) ∧
      dateutil_parseable_pandas exampleParse
        [PyVal.str "2020-01-01", PyVal.str "not-a-date", PyVal.int 42,
          PyVal.str "13/45/2020"] ≠
        Except.ok [true, false, false, false] := by
  exact ⟨rfl, by decide⟩

/-- C4 (amended): for every parser outcome assignment and every column, if
every value is a string the metric yields the same-length boolean column
whose entry is true iff the parse succeeds (`ValueError`/`OverflowError`
become false); if any value is a non-string, the internally raised
`TypeError` is not caught and the whole metric call fails with it. -/
theorem dateutil_parseable_characterization
    (parse : String → ParseOutcome) (column : List PyVal) :
    dateutil_parseable_pandas parse column =
      if column.all PyVal.isStr then
        Except.ok (column.map (fun v =>
          match v with
          | PyVal.str s => parse s = ParseOutcome.ok
          | _ => false))
      else Except.error (PyError.typeError dateutilTypeErrMsg) := by
  induction column with
  | nil => rfl
  | cons v tl ih =>
    cases v with
    | str s =>
      rw [show dateutil_parseable_pandas parse (PyVal.str s :: tl) =
          (match is_parseable parse (PyVal.str s) with
           | Except.error e => Except.error e
           | Except.ok b =>
             match dateutil_parseable_pandas parse tl with
             | Except.error e => Except.error e
             | Except.ok bs => Except.ok (b :: bs)) from rfl, ih]
      by_cases htl : tl.all PyVal.isStr
      · cases hp : parse s <;>
          simp [is_parseable, PyVal.isStr, List.all_cons, htl, hp]
      · cases hp : parse s <;>
          simp [is_parseable, PyVal.isStr, List.all_cons, htl, hp]
    | int n =>
      simp [dateutil_parseable_pandas, is_parseable, PyVal.isStr,
        List.all_cons]
    | noneVal =>
      simp [dateutil_parseable_pandas, is_parseable, PyVal.isStr,
        List.all_cons]

/-- `BatchParameters`: a Python dict from parameter names to the integer
batch parameters used here; `params[key]` raises `KeyError` when the key is
missing. -/
abbrev BatchParameters := List (String × Int)

/-- Python `batch_parameters[key]`. -/
def dictGetInt (batch_parameters : BatchParameters) (key : String) :
    Except PyError Int :=
  match List.lookup key batch_parameters with
  | some v => Except.ok v
  | none => Except.error (PyError.keyError key)

/-- Modelled from the spec: `MPTableAsset` lives in the experimental
`metric_provider` module, which is not part of this slice; per the spec it is
"a table asset (name + table name)". -/
structure MPTableAsset where
  name : String
  table_name : String

/-- The two partitioner variants admitted by the `SnowflakeAssetPartitionerT`
type variable (snowflake_provider_batch_definition.py lines 6-20): yearly or
daily column partitioner, each holding the target `column`. -/
inductive SnowflakePartitioner where
  | yearly (column : String)
  | daily (column : String)

/-- `SnowflakeTableAssetColumnYearlyPartitioner.get_where_clause_str` and
`SnowflakeTableAssetColumnDailyPartitioner.get_where_clause_str`
(snowflake_provider_batch_definition.py lines 11-20): literal f-string
substitution of the batch parameters into the clause template, the dict
subscripts evaluated left to right, a missing key raising `KeyError`. -/
def get_where_clause_str (p : SnowflakePartitioner)
    (batch_parameters : BatchParameters) : Except PyError String :=
  match p with
  | SnowflakePartitioner.yearly column => do
    let year ← dictGetInt batch_parameters "year"
    Except.ok ("YEAR(" ++ column ++ ") = " ++ toString year)
  | SnowflakePartitioner.daily column => do
    let year ← dictGetInt batch_parameters "year"
    let month ← dictGetInt batch_parameters "month"
    let day ← dictGetInt batch_parameters "day"
    Except.ok ("YEAR(" ++ column ++ ") = " ++ toString year ++
      " AND MONTH(" ++ column ++ ") = " ++ toString month ++
      " AND DAY(" ++ column ++ ") = " ++ toString day)

/-- `SnowflakeMPBatchDefinition` (snowflake_provider_batch_definition.py
line 24): the (asset, partitioner) pairing of `MPBatchDefinition`. -/
structure SnowflakeMPBatchDefinition where
  data_asset : MPTableAsset
  partitioner : SnowflakePartitioner

/-- `SnowflakeMPBatchDefinition.get_selectable_str` (lines 25-26):
`f"{self.data_asset.table_name} WHERE
{self.partitioner.get_where_clause_str(batch_parameters)}"`. -/
def get_selectable_str (bd : SnowflakeMPBatchDefinition)
    (batch_parameters : BatchParameters) : Except PyError String := do
  let w ← get_where_clause_str bd.partitioner batch_parameters
  Except.ok (bd.data_asset.table_name ++ " WHERE " ++ w)

/-- C5: for every table name T, asset name N, daily partitioner column C and
batch parameters binding integers y, m, d under "year", "month", "day", the
selectable string is exactly
`T WHERE YEAR(C) = y AND MONTH(C) = m AND DAY(C) = d` by literal
substitution; a missing required key fails at render time with a `KeyError`
naming that key. -/
theorem daily_selectable_literal_substitution :
    (∀ (N T C : String) (params : BatchParameters) (y m d : Int),
      List.lookup "year" params = some y →
        List.lookup "month" params = some m →
          List.lookup "day" params = some d →
            get_selectable_str ⟨⟨N, T⟩, SnowflakePartitioner.daily C⟩ params =
              Except.ok (T ++ " WHERE YEAR(" ++ C ++ ") = " ++ toString y ++
                " AND MONTH(" ++ C ++ ") = " ++ toString m ++
                " AND DAY(" ++ C ++ ") = " ++ toString d)) ∧
    (∀ (N T C : String) (params : BatchParameters),
      List.lookup "year" params = none →
        get_selectable_str ⟨⟨N, T⟩, SnowflakePartitioner.daily C⟩ params =
          Except.error (PyError.keyError "year")) ∧
    (∀ (N T C : String) (params : BatchParameters) (y : Int),
      List.lookup "year" params = some y →
        List.lookup "month" params = none →
          get_selectable_str ⟨⟨N, T⟩, SnowflakePartitioner.daily C⟩ params =
            Except.error (PyError.keyError "month")) ∧
    (∀ (N T C : String) (params : BatchParameters) (y m : Int),
      List.lookup "year" params = some y →
        List.lookup "month" params = some m →
          List.lookup "day" params = none →
            get_selectable_str ⟨⟨N, T⟩, SnowflakePartitioner.daily C⟩ params =
              Except.error (PyError.keyError "day")) := by
  refine ⟨?_, ?_, ?_, ?_⟩
  · intro N T C params y m d hy hm hd
    simp only [get_selectable_str, get_where_clause_str, dictGetInt, hy, hm, hd]
    exact congrArg Except.ok (by
      simp only [← String.append_assoc]
      rw [String.append_assoc T " WHERE " "YEAR("]
      simp)
  · intro N T C params hy
    simp only [get_selectable_str, get_where_clause_str, dictGetInt, hy]
    rfl
  · intro N T C params y hy hm
    simp only [get_selectable_str, get_where_clause_str, dictGetInt, hy, hm]
    rfl
  · intro N T C params y m hy hm hd
    simp only [get_selectable_str, get_where_clause_str, dictGetInt, hy, hm, hd]
    rfl

/-- C5 witness: table "orders", column "created_at", parameters
year 2024, month 3, day 7. -/
theorem daily_selectable_literal_substitution_witness :
    get_selectable_str
        ⟨⟨"orders_asset", "orders"⟩, SnowflakePartitioner.daily "created_at"⟩
        [("year", 2024), ("month", 3), ("day", 7)] =
      Except.ok ("orders" ++ " WHERE YEAR(" ++ "created_at" ++ ") = " ++
        toString (2024 : Int) ++ " AND MONTH(" ++ "created_at" ++ ") = " ++
        toString (3 : Int) ++ " AND DAY(" ++ "created_at" ++ ") = " ++
        toString (7 : Int)) :=
  daily_selectable_literal_substitution.1 "orders_asset" "orders" "created_at"
    [("year", 2024), ("month", 3), ("day", 7)] 2024 3 7 rfl rfl rfl

theorem except_bind_ok {ε α β : Type} (a : α) (f : α → Except ε β) :
    (do let x ← (Except.ok a : Except ε α); f x) = f a := rfl

/-- Python `batch_identifiers[key]` on a batch's identifier map (identifier
values modelled as strings, the type the validated reference list holds);
a missing key raises `KeyError`. -/
def dictGetStr (batch_identifiers : List (String × String)) (key : String) :
    Except PyError String :=
  match List.lookup key batch_identifiers with
  | some v => Except.ok v
  | none => Except.error (PyError.keyError key)

/-- `CustomListSorter` (custom_list_sorter.py): the sorter's `name` and its
construction-validated reference list of strings. -/
structure CustomListSorter where
  name : String
  reference_list : List String

/-- `CustomListSorter.get_batch_key` (custom_list_sorter.py lines 48-57):
look up the batch's value for the sorter's `name`; if the value occurs in
the reference list return `reference_list.index(value)` (the first
zero-based position), else raise `SorterError`. -/
def CustomListSorter.get_batch_key (sorter : CustomListSorter)
    (batch_identifiers : List (String × String)) : Except PyError Nat := do
  let batch_value ← dictGetStr batch_identifiers sorter.name
  if sorter.reference_list.contains batch_value then
    Except.ok (sorter.reference_list.indexOf batch_value)
  else
    Except.error (PyError.sorterError
      ("Source " ++ batch_value ++ " was not found in Reference list.  Try again..."))

theorem indexOf_first_position (L : List String) (v : String) (h : v ∈ L) :
    L[L.indexOf v]? = some v ∧ ∀ j, j < L.indexOf v → L[j]? ≠ some v := by
  induction L with
  | nil => cases h
  | cons a tl ih =>
    by_cases hav : a = v
    · subst hav
      simp [List.indexOf_cons_self]
    · have hmem : v ∈ tl := by
        rcases List.mem_cons.mp h with h' | h'
        · exact absurd h'.symm hav
        · exact h'
      have hidx : (a :: tl).indexOf v = tl.indexOf v + 1 := by
        simp [List.indexOf_cons, hav]
      rcases ih hmem with ⟨h1, h2⟩
      refine ⟨by rw [hidx]; simpa using h1, ?_⟩
      intro j hj
      rw [hidx] at hj
      cases j with
      | zero =>
        simp only [List.getElem?_cons_zero, ne_eq, Option.some.injEq]
        exact fun he => hav he
      | succ k =>
        simp only [List.getElem?_cons_succ]
        exact h2 k (by omega)

/-- C6: for a list-rank sorter with reference list L and a batch whose
identifier map binds the sorter's name to value v: if v occurs in L,
`get_batch_key` returns the zero-based first position of v in L; if v does
not occur in L it fails with a `SorterError` naming the missing value. -/
theorem custom_list_get_batch_key (L : List String) (name v : String)
    (batch_identifiers : List (String × String))
    (h : List.lookup name batch_identifiers = some v) :
    (v ∈ L →
      ∃ k, CustomListSorter.get_batch_key ⟨name, L⟩ batch_identifiers =
          Except.ok k ∧
        L[k]? = some v ∧ ∀ j, j < k → L[j]? ≠ some v) ∧
    (v ∉ L →
      CustomListSorter.get_batch_key ⟨name, L⟩ batch_identifiers =
        Except.error (PyError.sorterError
          ("Source " ++ v ++ " was not found in Reference list.  Try again..."))) := by
  constructor
  · intro hmem
    refine ⟨L.indexOf v, ?_, (indexOf_first_position L v hmem).1,
      (indexOf_first_position L v hmem).2⟩
    simp [CustomListSorter.get_batch_key, dictGetStr, h, except_bind_ok, hmem]
  · intro hmem
    simp [CustomListSorter.get_batch_key, dictGetStr, h, except_bind_ok, hmem]

/-- C6 witness: with reference list ["a","b","c"] and batch identifier
{"x": "b"} the key is the position 1; the absent value "z" fails with
`SorterError`. -/
theorem custom_list_get_batch_key_witness :
    (∃ k, CustomListSorter.get_batch_key ⟨"x", ["a", "b", "c"]⟩ [("x", "b")] =
        Except.ok k ∧
      ["a", "b", "c"][k]? = some "b" ∧
        ∀ j, j < k → ["a", "b", "c"][j]? ≠ some "b") ∧
      CustomListSorter.get_batch_key ⟨"x", ["a", "b", "c"]⟩ [("x", "b")] =
        Except.ok 1 ∧
      CustomListSorter.get_batch_key ⟨"x", ["a", "b", "c"]⟩ [("x", "z")] =
        Except.error (PyError.sorterError
          "Source z was not found in Reference list.  Try again...") :=
  ⟨(custom_list_get_batch_key ["a", "b", "c"] "x" "b" [("x", "b")] rfl).1
      (by decide),
    rfl,
    (custom_list_get_batch_key ["a", "b", "c"] "x" "z" [("x", "z")] rfl).2
      (by decide)⟩

/-- Message prefix of the `DateTimeSorter` format check (date_time_sorter.py
lines 23-27; the Python message appends the offending type). -/
def dateTimeFormatErrMsg : String :=
  "DateTime parsing formatter \"datetime_format_string\" must have string type"

/-- Format check in `DateTimeSorter.__init__` (date_time_sorter.py lines
20-30): `if datetime_format and not isinstance(datetime_format, str): raise
SorterError(...)`; note the truthiness conjunct — a falsy format of any type
passes the check. -/
def date_time_sorter_init_format_check (datetime_format : PyVal) :
    Except PyError Unit :=
  if datetime_format.truthy && !datetime_format.isStr then
    Except.error (PyError.sorterError dateTimeFormatErrMsg)
  else
    Except.ok ()

/-- C8 counterexample: Python `None` is not a string, so the claim says
construction fails; but `None` is falsy, so the check
`if datetime_format and not isinstance(datetime_format, str)` is skipped and
construction succeeds (likewise for the non-string `0`). -/
theorem date_time_format_check_counterexample :
    PyVal.isStr PyVal.noneVal = false ∧
      date_time_sorter_init_format_check PyVal.noneVal = Except.ok () ∧
      PyVal.isStr (PyVal.int 0) = false ∧
      date_time_sorter_init_format_check (PyVal.int 0) = Except.ok () :=
  ⟨rfl, rfl, rfl, rfl⟩

/-- C8 (amended): the eager construction-time format check rejects exactly
the truthy non-string formats: every string (truthy or not) is accepted,
every truthy non-string fails with the `SorterError`, and every falsy value
— string or not — is accepted. -/
theorem date_time_format_check_characterization : ∀ v : PyVal,
    (v.isStr = true → date_time_sorter_init_format_check v = Except.ok ()) ∧
    (v.truthy = true → v.isStr = false →
      date_time_sorter_init_format_check v =
        Except.error (PyError.sorterError dateTimeFormatErrMsg)) ∧
    (v.truthy = false → date_time_sorter_init_format_check v = Except.ok ()) := by
  intro v
  refine ⟨?_, ?_, ?_⟩
  · intro hs
    simp [date_time_sorter_init_format_check, hs]
  · intro ht hs
    simp [date_time_sorter_init_format_check, ht, hs]
  · intro ht
    simp [date_time_sorter_init_format_check, ht]

/-- C8 witness: the string "%Y%m%d" and the falsy `None` are accepted; the
truthy non-string `5` is rejected. -/
theorem date_time_format_check_characterization_witness :
    date_time_sorter_init_format_check (PyVal.str "%Y%m%d") = Except.ok () ∧
      date_time_sorter_init_format_check (PyVal.int 5) =
        Except.error (PyError.sorterError dateTimeFormatErrMsg) ∧
      date_time_sorter_init_format_check PyVal.noneVal = Except.ok () :=
  ⟨(date_time_format_check_characterization (PyVal.str "%Y%m%d")).1 rfl,
    (date_time_format_check_characterization (PyVal.int 5)).2.1 (by decide) rfl,
    (date_time_format_check_characterization PyVal.noneVal).2.2 rfl⟩

/-- A calendar date as parsed by the sorter's default `%Y%m%d` format. -/
structure Date where
  year : Nat
  month : Nat
  day : Nat
  deriving DecidableEq

/-- Chronological strict order on dates: lexicographic on
(year, month, day). -/
def Date.chronLt (a b : Date) : Prop :=
  a.year < b.year ∨ (a.year = b.year ∧ (a.month < b.month ∨
    (a.month = b.month ∧ a.day < b.day)))

instance (a b : Date) : Decidable (Date.chronLt a b) := by
  unfold Date.chronLt
  infer_instance

/-- Numeric value of a decimal digit character. -/
def digitVal (c : Char) : Nat := c.toNat - 48

/-- Modelled from the spec: `parse_string_to_datetime`
(`great_expectations_v1.core.util`, not part of this slice) parses the batch
value against the configured format string. For the default `%Y%m%d` format
it accepts exactly an 8-digit string whose month part lies in 1..12 and day
part in 1..31, and fails (ParseError) otherwise. -/
def parseYmd (s : String) : Option Date :=
  match s.data with
  | [y1, y2, y3, y4, m1, m2, d1, d2] =>
    if y1.isDigit && y2.isDigit && y3.isDigit && y4.isDigit &&
        m1.isDigit && m2.isDigit && d1.isDigit && d2.isDigit then
      if 1 ≤ digitVal m1 * 10 + digitVal m2 ∧ digitVal m1 * 10 + digitVal m2 ≤ 12 ∧
          1 ≤ digitVal d1 * 10 + digitVal d2 ∧ digitVal d1 * 10 + digitVal d2 ≤ 31 then
        some ⟨((digitVal y1 * 10 + digitVal y2) * 10 + digitVal y3) * 10 + digitVal y4,
          digitVal m1 * 10 + digitVal m2, digitVal d1 * 10 + digitVal d2⟩
      else none
    else none
  | _ => none

/-- Modelled from the spec: `datetime_to_int`
(`great_expectations_v1.core.util`, not part of this slice) turns the parsed
date into "an integer encoding suitable for ordering (monotonic with
chronological order)": the decimal digits of `%Y%m%d%H%M%S` with zero time
of day. -/
def datetime_to_int (dt : Date) : Nat :=
  ((dt.year * 100 + dt.month) * 100 + dt.day) * 1000000

/-- `DateTimeSorter.get_batch_key` (date_time_sorter.py lines 32-40) for the
default `%Y%m%d` format: look up the batch's value for the sorter's `name`,
parse it with `parse_string_to_datetime`, and return `datetime_to_int` of
the parsed date; an unparseable value raises a ParseError. -/
def DateTimeSorter.get_batch_key (name : String)
    (batch_identifiers : List (String × String)) : Except PyError Nat := do
  let partition_value ← dictGetStr batch_identifiers name
  match parseYmd partition_value with
  | some dt => Except.ok (datetime_to_int dt)
  | none => Except.error (PyError.valueError partition_value)

theorem parseYmd_bounds (s : String) (d : Date) (h : parseYmd s = some d) :
    1 ≤ d.month ∧ d.month ≤ 12 ∧ 1 ≤ d.day ∧ d.day ≤ 31 := by
  simp only [parseYmd] at h
  split at h
  · split at h
    · split at h
      · rename_i hbounds
        cases h
        exact hbounds
      · exact absurd h (by simp)
    · exact absurd h (by simp)
  · exact absurd h (by simp)

theorem datetime_to_int_strict_mono (a b : Date)
    (ha : 1 ≤ a.month ∧ a.month ≤ 12 ∧ 1 ≤ a.day ∧ a.day ≤ 31)
    (hb : 1 ≤ b.month ∧ b.month ≤ 12 ∧ 1 ≤ b.day ∧ b.day ≤ 31)
    (hlt : Date.chronLt a b) :
    datetime_to_int a < datetime_to_int b := by
  obtain ⟨ha1, ha2, ha3, ha4⟩ := ha
  obtain ⟨hb1, hb2, hb3, hb4⟩ := hb
  unfold datetime_to_int
  rcases hlt with h | ⟨he, h | ⟨hm, h⟩⟩ <;>
    omega

/-- C9: for every pair of batch values that both parse under the sorter's
`%Y%m%d` format, `get_batch_key` is strictly monotone with chronological
order: the earlier date maps to a strictly smaller integer key. -/
theorem date_time_sorter_monotonic (name v1 v2 : String)
    (ids1 ids2 : List (String × String)) (d1 d2 : Date)
    (h1 : List.lookup name ids1 = some v1)
    (h2 : List.lookup name ids2 = some v2)
    (hp1 : parseYmd v1 = some d1) (hp2 : parseYmd v2 = some d2)
    (hlt : Date.chronLt d1 d2) :
    ∃ k1 k2, DateTimeSorter.get_batch_key name ids1 = Except.ok k1 ∧
      DateTimeSorter.get_batch_key name ids2 = Except.ok k2 ∧ k1 < k2 := by
  refine ⟨datetime_to_int d1, datetime_to_int d2, ?_, ?_,
    datetime_to_int_strict_mono d1 d2 (parseYmd_bounds v1 d1 hp1)
      (parseYmd_bounds v2 d2 hp2) hlt⟩
  · simp [DateTimeSorter.get_batch_key, dictGetStr, h1, except_bind_ok, hp1]
  · simp [DateTimeSorter.get_batch_key, dictGetStr, h2, except_bind_ok, hp2]

/-- C9 witness: under format `%Y%m%d`, the key for "20240115" lies strictly
between the keys for "20240114" and "20240116". -/
theorem date_time_sorter_monotonic_witness :
    (∃ k1 k2, DateTimeSorter.get_batch_key "x" [("x", "20240114")] = Except.ok k1 ∧
      DateTimeSorter.get_batch_key "x" [("x", "20240115")] = Except.ok k2 ∧
        k1 < k2) ∧
    (∃ k1 k2, DateTimeSorter.get_batch_key "x" [("x", "20240115")] = Except.ok k1 ∧
      DateTimeSorter.get_batch_key "x" [("x", "20240116")] = Except.ok k2 ∧
        k1 < k2) :=
  ⟨date_time_sorter_monotonic "x" "20240114" "20240115" [("x", "20240114")]
      [("x", "20240115")] ⟨2024, 1, 14⟩ ⟨2024, 1, 15⟩ rfl rfl (by decide)
      (by decide) (by decide),
    date_time_sorter_monotonic "x" "20240115" "20240116" [("x", "20240115")]
      [("x", "20240116")] ⟨2024, 1, 15⟩ ⟨2024, 1, 16⟩ rfl rfl (by decide)
      (by decide) (by decide)⟩

end GXSpec
